import Mathlib

/-!
Verification development for the lead-management frontend.

The definitions below are a shallow embedding of the client-side logic of
the repository: the `App` routing switch (`src/lead-frontend/src/App.jsx`),
the `CreateCampaign` component's state and its `handleCreateCampaign` /
`fetchAgents` operations (`components/CreateCampaign.jsx`), the `Dashboard`
component (`components/Dashboard.jsx`), and the label computations of
`AgentSelect.jsx` and `AgentCard.jsx`. Asynchronous `fetch` calls are
embedded by passing the observed outcome of the request as an explicit
argument; the JavaScript truthiness of optional strings (null / undefined /
empty) is made explicit in `strTruthy` and `jsOr`.
-/

namespace LeadMgmt

/-- An agent record as delivered by `GET /api/v1/agents`:
an opaque `id` and an optional `name` (may be null/undefined, here `none`,
or present, here `some`). -/
structure Agent where
  id : String
  name : Option String
deriving DecidableEq, Repr

/-- JavaScript truthiness of an optional string: `null`/`undefined`
(here `none`) and the empty string are falsy; any other string is truthy. -/
def strTruthy : Option String → Bool
  | none => false
  | some s => !(s == "")

/-- JavaScript `v || dflt` on an optional string: yields the string when it
is truthy, otherwise the default. -/
def jsOr (v : Option String) (dflt : String) : String :=
  match v with
  | none => dflt
  | some s => if s == "" then dflt else s

/-- Substring-containment on strings (the needle occurs contiguously in the
haystack), used to state that a message "incorporates" some text. -/
def strContains (hay pat : String) : Prop :=
  pat.data <:+: hay.data

instance (hay pat : String) : Decidable (strContains hay pat) :=
  inferInstanceAs (Decidable (pat.data <:+: hay.data))

/-! ## AgentSelect and AgentCard labels -/

/-- Label of an `<option>` in `AgentSelect.jsx`: `agent.name || agent.id`. -/
def agentOptionLabel (a : Agent) : String :=
  jsOr a.name a.id

/-- Heading of a card in `AgentCard.jsx`: `agent.name || 'Unnamed Agent'`. -/
def agentCardLabel (a : Agent) : String :=
  jsOr a.name "Unnamed Agent"

/-! ## CreateCampaign state machine -/

/-- The React state of `CreateCampaign.jsx`: the selected file (by file
name, `none` when unset), the outcome message and its type, the in-flight
flag `loading`, the fetched agent roster, the selected agent id (empty
string when none chosen), and the agent-fetch status fields. -/
structure CCState where
  selectedFile : Option String
  message : String
  messageType : String
  loading : Bool
  agents : List Agent
  selectedAgent : String
  agentLoading : Bool
  agentError : Option String
deriving DecidableEq, Repr

/-- The `useState` initial values of `CreateCampaign.jsx`. -/
def ccInit : CCState :=
  { selectedFile := none
    message := ""
    messageType := ""
    loading := false
    agents := []
    selectedAgent := ""
    agentLoading := true
    agentError := none }

/-- Outcome of the agents `fetch` in either view: a 2xx response with a
decoded agent array, a non-ok response (the code throws
`HTTP error! status: {status}`), or a transport-level rejection carrying
the caught error message. -/
inductive AgentsFetch where
  | ok (agents : List Agent)
  | httpError (status : Nat)
  | transportError (msg : String)
deriving DecidableEq, Repr

/-- The error message built by `throw new Error` for a non-ok agents
response. -/
def httpErrorMsg (status : Nat) : String :=
  "HTTP error! status: " ++ toString status

/-- The `fetchAgents` effect of `CreateCampaign.jsx` applied to a state:
on success it stores the roster (and deliberately does not touch
`selectedAgent`); on failure it records the error message; `finally` it
clears `agentLoading`. -/
def ccFetchAgents (res : AgentsFetch) (s : CCState) : CCState :=
  match res with
  | .ok data => { s with agents := data, agentLoading := false }
  | .httpError status =>
      { s with agentError := some (httpErrorMsg status), agentLoading := false }
  | .transportError m =>
      { s with agentError := some m, agentLoading := false }

/-- The multipart form posted to `/api/v1/upload-leads` by
`handleCreateCampaign`: the file under field `file` and the agent id under
field `agent_id`. -/
structure UploadRequest where
  file : String
  agent_id : String
deriving DecidableEq, Repr

/-- Outcome of the upload `fetch`: `ok leadIds` is a 2xx response whose
decoded body may (`some`) or may not (`none`) carry a `lead_ids` array;
`httpError detail` is a non-ok response with a decodable JSON body whose
`detail` field may be absent; `thrown` is a transport-level failure or an
undecodable body, carrying the caught error's message. -/
inductive UploadOutcome where
  | ok (leadIds : Option (List String))
  | httpError (detail : Option String)
  | thrown (msg : String)
deriving DecidableEq, Repr

/-- `handleCreateCampaign` of `CreateCampaign.jsx`. Returns the resulting
state and the request sent over the network (`none` when a validation
guard fired and no request was issued). `outcome` is the observed result
of the POST; `tyErrMsg` is the message of the `TypeError` the engine
raises when a 2xx body lacks `lead_ids` and the code evaluates
`data.lead_ids.length` (that exception lands in the same `catch` as
transport failures). -/
def handleCreateCampaign (s : CCState) (outcome : UploadOutcome)
    (tyErrMsg : String) : CCState × Option UploadRequest :=
  match s.selectedFile with
  | none =>
      ({ s with message := "Please select a CSV file to upload.",
                messageType := "error" }, none)
  | some f =>
      if s.selectedAgent == "" then
        ({ s with message := "Please select an agent for the campaign.",
                  messageType := "error" }, none)
      else
        let s1 := { s with loading := true, message := "", messageType := "" }
        let s2 :=
          match outcome with
          | .ok (some ids) =>
              { s1 with
                message := "Campaign created! Processed " ++
                  toString ids.length ++ " leads.",
                messageType := "success",
                selectedFile := none }
          | .ok none =>
              { s1 with message := "An error occurred: " ++ tyErrMsg,
                        messageType := "error" }
          | .httpError detail =>
              { s1 with
                message := "Campaign creation failed: " ++
                  jsOr detail "Unknown error",
                messageType := "error" }
          | .thrown m =>
              { s1 with message := "An error occurred: " ++ m,
                        messageType := "error" }
        ({ s2 with loading := false },
         some { file := f, agent_id := s.selectedAgent })

/-- The `disabled` expression of the submit button in `CreateCampaign.jsx`:
`!selectedFile || !selectedAgent || loading`. -/
def submitDisabled (s : CCState) : Bool :=
  s.selectedFile.isNone || s.selectedAgent == "" || s.loading

/-! ## Dashboard (Agent Roster View) -/

/-- The React state of `Dashboard.jsx`. -/
structure DashState where
  agents : List Agent
  loading : Bool
  error : Option String
deriving DecidableEq, Repr

/-- The `useState` initial values of `Dashboard.jsx`. -/
def dashInit : DashState :=
  { agents := [], loading := true, error := none }

/-- The `fetchAgents` effect of `Dashboard.jsx` applied to a state. -/
def dashFetchAgents (res : AgentsFetch) (s : DashState) : DashState :=
  match res with
  | .ok data => { s with agents := data, loading := false }
  | .httpError status =>
      { s with error := some (httpErrorMsg status), loading := false }
  | .transportError m =>
      { s with error := some m, loading := false }

/-- What the Dashboard renders: the loading line, the error line with its
full text, the explicit empty-state message, or one card per agent keyed
by that agent's id. -/
inductive DashRender where
  | loadingView
  | errorView (msg : String)
  | emptyState
  | cards (keys : List String)
deriving DecidableEq, Repr

/-- The render logic of `Dashboard.jsx`: early return on `loading`, then on
a truthy `error`, then the empty-state paragraph or the card grid keyed by
`agent.id`. -/
def dashboardRender (s : DashState) : DashRender :=
  if s.loading then .loadingView
  else if strTruthy s.error then
    .errorView ("Error loading agents: " ++ jsOr s.error "")
  else if s.agents.length == 0 then .emptyState
  else .cards (s.agents.map Agent.id)

/-! ## App routing -/

/-- The two top-level views of the application. -/
inductive View where
  | dashboard
  | createCampaign
deriving DecidableEq, Repr

/-- `renderContent` of `App.jsx`: a switch on `activeSection` with cases
`dashboard` and `create-campaign` and a default rendering the Dashboard. -/
def renderContent (activeSection : String) : View :=
  if activeSection == "dashboard" then .dashboard
  else if activeSection == "create-campaign" then .createCampaign
  else .dashboard

/-! ## Helper lemmas -/

lemma strContains_append_right (a b : String) : strContains (a ++ b) b := by
  unfold strContains
  rw [String.data_append]
  exact (List.suffix_append _ _).isInfix

lemma strContains_of_append_left (a b c : String) (h : strContains b c) :
    strContains (a ++ b) c := by
  unfold strContains at *
  rw [String.data_append]
  exact h.trans (List.suffix_append _ _).isInfix

lemma strContains_empty (a : String) : strContains a "" := by
  unfold strContains
  simp

lemma httpErrorMsg_ne_empty (status : Nat) : httpErrorMsg status ≠ "" := by
  unfold httpErrorMsg
  intro h
  have h2 := congrArg String.data h
  rw [String.data_append] at h2
  rcases List.append_eq_nil.mp h2 with ⟨h3, -⟩
  exact absurd h3 (by decide)

/-- A state of the Campaign Creation View ready to submit: file selected
and agent chosen (used to instantiate the submit theorems concretely). -/
def ccReady : CCState :=
  { ccInit with selectedFile := some "leads.csv", selectedAgent := "agent_42" }

/-! ## Theorems -/

/-- C1: in every state of the Campaign Creation View, the submit action is
enabled (not disabled) if and only if the selected file is set, the
selected agent id is non-empty, and no submission is in flight; i.e.
submit is disabled iff the file is unset, the agent is unset, or a
submission is in flight. -/
theorem submit_enabled_iff (s : CCState) :
    submitDisabled s = false ↔
      (s.selectedFile ≠ none ∧ s.selectedAgent ≠ "" ∧ s.loading = false) := by
  cases s with
  | mk sf msg mty ld ags sa al ae =>
      cases sf <;> cases ld <;>
        simp [submitDisabled, Option.isNone]

/-- C7: loading agents in the Campaign Creation View never modifies the
selected agent: the fetch effect leaves `selectedAgent` unchanged in every
state and for every fetch result, the initial selection is empty, and in
particular after loading a roster with exactly one agent the selection is
still empty. -/
theorem fetch_agents_no_autoselect :
    (∀ (res : AgentsFetch) (s : CCState),
        (ccFetchAgents res s).selectedAgent = s.selectedAgent) ∧
    ccInit.selectedAgent = "" ∧
    (∀ a : Agent, (ccFetchAgents (.ok [a]) ccInit).selectedAgent = "") := by
  refine ⟨fun res s => ?_, rfl, fun a => rfl⟩
  cases res <;> rfl

/-- C8: when an agent's name is absent (null/undefined/empty, i.e. falsy),
the selection control's option label falls back to the agent's id and the
roster card's heading falls back to the fixed placeholder `Unnamed Agent`;
when a name is present it is displayed as-is in both places. -/
theorem agent_label_fallback (a : Agent) :
    (strTruthy a.name = false →
        agentOptionLabel a = a.id ∧ agentCardLabel a = "Unnamed Agent") ∧
    (∀ n, a.name = some n → n ≠ "" →
        agentOptionLabel a = n ∧ agentCardLabel a = n) := by
  obtain ⟨i, nm⟩ := a
  constructor
  · intro h
    cases nm with
    | none => exact ⟨rfl, rfl⟩
    | some n =>
        simp only [strTruthy, Bool.not_eq_false', beq_iff_eq] at h
        simp [agentOptionLabel, agentCardLabel, jsOr, h]
  · intro n hn hne
    cases hn
    simp [agentOptionLabel, agentCardLabel, jsOr, hne]

/-- C8 witness: an agent with an absent name labels as its id in the
selector and as `Unnamed Agent` on the card; one with a present name shows
that name in both places. -/
theorem agent_label_fallback_witness :
    (agentOptionLabel { id := "agent_1", name := none } = "agent_1" ∧
     agentCardLabel { id := "agent_1", name := none } = "Unnamed Agent") ∧
    (agentOptionLabel { id := "agent_2", name := some "Ava" } = "Ava" ∧
     agentCardLabel { id := "agent_2", name := some "Ava" } = "Ava") :=
  ⟨(agent_label_fallback { id := "agent_1", name := none }).1 (by decide),
   (agent_label_fallback { id := "agent_2", name := some "Ava" }).2 "Ava" rfl
     (by decide)⟩

/-- C10: the application renders the Campaign Creation View exactly when
the active section is `create-campaign`, and renders the Dashboard both
for `dashboard` and for every unrecognized section value. -/
theorem render_content_routing (sec : String) :
    (renderContent sec = .createCampaign ↔ sec = "create-campaign") ∧
    (renderContent sec = .dashboard ↔ sec ≠ "create-campaign") := by
  by_cases h : sec = "create-campaign"
  · subst h
    constructor <;> simp [renderContent]
  · by_cases h2 : sec = "dashboard" <;>
      simp [renderContent, h, h2]

/-- C2: a submit with a file and an agent selected whose POST returns HTTP
success with a `lead_ids` array yields a message reporting exactly the
length of that array, success styling, the selected file cleared, the
selected agent unchanged, and the in-flight flag back to idle. -/
theorem submit_success_outcome (s : CCState) (f : String) (ids : List String)
    (tyErrMsg : String) (hf : s.selectedFile = some f)
    (ha : s.selectedAgent ≠ "") :
    (handleCreateCampaign s (.ok (some ids)) tyErrMsg).1.message =
        "Campaign created! Processed " ++ toString ids.length ++ " leads." ∧
    (handleCreateCampaign s (.ok (some ids)) tyErrMsg).1.messageType =
        "success" ∧
    (handleCreateCampaign s (.ok (some ids)) tyErrMsg).1.selectedFile =
        none ∧
    (handleCreateCampaign s (.ok (some ids)) tyErrMsg).1.selectedAgent =
        s.selectedAgent ∧
    (handleCreateCampaign s (.ok (some ids)) tyErrMsg).1.loading = false := by
  have hb : (s.selectedAgent == "") = false := by
    simp [ha]
  simp [handleCreateCampaign, hf, hb]

/-- C2 witness: with file `leads.csv`, agent `agent_42` and success body
`lead_ids = ["1","2","3"]`, the message reports 3 leads, styling is
success, the file is cleared and the agent persists, back to idle. -/
theorem submit_success_outcome_witness :
    (handleCreateCampaign ccReady (.ok (some ["1", "2", "3"])) "boom").1.message
        = "Campaign created! Processed 3 leads." ∧
    (handleCreateCampaign ccReady (.ok (some ["1", "2", "3"])) "boom").1.messageType
        = "success" ∧
    (handleCreateCampaign ccReady (.ok (some ["1", "2", "3"])) "boom").1.selectedFile
        = none ∧
    (handleCreateCampaign ccReady (.ok (some ["1", "2", "3"])) "boom").1.selectedAgent
        = "agent_42" ∧
    (handleCreateCampaign ccReady (.ok (some ["1", "2", "3"])) "boom").1.loading
        = false := by
  obtain ⟨h1, h2, h3, h4, h5⟩ :=
    submit_success_outcome ccReady "leads.csv" ["1", "2", "3"] "boom" rfl
      (by decide)
  refine ⟨?_, h2, h3, ?_, h5⟩
  · rw [h1]
    decide
  · rw [h4]
    decide

/-- C3: a submit whose POST returns a non-success status with a decodable
JSON body yields a failure-styled message that is exactly the failure
label with the body's `detail` when truthy and the generic label
otherwise (so the message contains the detail text whenever present, and
the generic label when absent); the in-flight flag returns to idle and
both the selected file and the selected agent are unchanged. -/
theorem submit_http_error_outcome (s : CCState) (f : String)
    (detail : Option String) (tyErrMsg : String)
    (hf : s.selectedFile = some f) (ha : s.selectedAgent ≠ "") :
    (handleCreateCampaign s (.httpError detail) tyErrMsg).1.message =
        "Campaign creation failed: " ++ jsOr detail "Unknown error" ∧
    (∀ d, detail = some d →
        strContains
          (handleCreateCampaign s (.httpError detail) tyErrMsg).1.message d) ∧
    (detail = none →
        strContains
          (handleCreateCampaign s (.httpError detail) tyErrMsg).1.message
          "Unknown error") ∧
    (handleCreateCampaign s (.httpError detail) tyErrMsg).1.messageType =
        "error" ∧
    (handleCreateCampaign s (.httpError detail) tyErrMsg).1.loading = false ∧
    (handleCreateCampaign s (.httpError detail) tyErrMsg).1.selectedFile =
        s.selectedFile ∧
    (handleCreateCampaign s (.httpError detail) tyErrMsg).1.selectedAgent =
        s.selectedAgent := by
  have hb : (s.selectedAgent == "") = false := by
    simp [ha]
  have hmsg : (handleCreateCampaign s (.httpError detail) tyErrMsg).1.message =
      "Campaign creation failed: " ++ jsOr detail "Unknown error" := by
    simp [handleCreateCampaign, hf, hb]
  refine ⟨hmsg, ?_, ?_, ?_, ?_, ?_, ?_⟩
  · intro d hd
    subst hd
    rw [hmsg]
    by_cases hde : d = ""
    · subst hde
      exact strContains_empty _
    · have : jsOr (some d) "Unknown error" = d := by
        simp [jsOr, hde]
      rw [this]
      exact strContains_append_right _ _
  · intro hd
    subst hd
    rw [hmsg]
    exact strContains_append_right _ _
  · simp [handleCreateCampaign, hf, hb]
  · simp [handleCreateCampaign, hf, hb]
  · simp [handleCreateCampaign, hf, hb]
  · simp [handleCreateCampaign, hf, hb]

/-- C3 witness: with file and agent selected and a 400 body
`detail = "bad column"`, the message contains `bad column`, failure
styling applies, the flag is idle, and file and agent persist. -/
theorem submit_http_error_outcome_witness :
    strContains
      (handleCreateCampaign ccReady (.httpError (some "bad column")) "boom").1.message
      "bad column" ∧
    (handleCreateCampaign ccReady (.httpError (some "bad column")) "boom").1.messageType
      = "error" ∧
    (handleCreateCampaign ccReady (.httpError (some "bad column")) "boom").1.loading
      = false ∧
    (handleCreateCampaign ccReady (.httpError (some "bad column")) "boom").1.selectedFile
      = some "leads.csv" ∧
    (handleCreateCampaign ccReady (.httpError (some "bad column")) "boom").1.selectedAgent
      = "agent_42" := by
  obtain ⟨h1, h2, h3, h4, h5, h6, h7⟩ :=
    submit_http_error_outcome ccReady "leads.csv" (some "bad column") "boom"
      rfl (by decide)
  refine ⟨h2 "bad column" rfl, h4, h5, ?_, ?_⟩
  · rw [h6]
    decide
  · rw [h7]
    decide

/-- C4: submit validation — with no file selected a `select a CSV`
validation error is reported and no request is issued regardless of the
agent selection; with a file but no agent a `select an agent` validation
error is reported and no request is issued; with both selected the
multipart POST is issued with the file under field `file` and the agent
id under field `agent_id`. -/
theorem submit_validation_guards (s : CCState) (outcome : UploadOutcome)
    (tyErrMsg : String) :
    (s.selectedFile = none →
        (handleCreateCampaign s outcome tyErrMsg).2 = none ∧
        (handleCreateCampaign s outcome tyErrMsg).1.message =
          "Please select a CSV file to upload." ∧
        (handleCreateCampaign s outcome tyErrMsg).1.messageType = "error") ∧
    (∀ f, s.selectedFile = some f → s.selectedAgent = "" →
        (handleCreateCampaign s outcome tyErrMsg).2 = none ∧
        (handleCreateCampaign s outcome tyErrMsg).1.message =
          "Please select an agent for the campaign." ∧
        (handleCreateCampaign s outcome tyErrMsg).1.messageType = "error") ∧
    (∀ f, s.selectedFile = some f → s.selectedAgent ≠ "" →
        (handleCreateCampaign s outcome tyErrMsg).2 =
          some { file := f, agent_id := s.selectedAgent }) := by
  refine ⟨?_, ?_, ?_⟩
  · intro hf
    simp [handleCreateCampaign, hf]
  · intro f hf hag
    simp [handleCreateCampaign, hf, hag]
  · intro f hf hag
    have hb : (s.selectedAgent == "") = false := by
      simp [hag]
    simp [handleCreateCampaign, hf, hb]

/-- C4 witness: with no file no request is issued and the CSV validation
error shows; with a file but no agent no request is issued and the agent
validation error shows; with both selected the request carries the file
under `file` and the agent id under `agent_id`. -/
theorem submit_validation_guards_witness :
    (handleCreateCampaign { ccInit with selectedAgent := "agent_42" }
        (.ok (some [])) "boom").2 = none ∧
    (handleCreateCampaign { ccInit with selectedAgent := "agent_42" }
        (.ok (some [])) "boom").1.message =
      "Please select a CSV file to upload." ∧
    (handleCreateCampaign { ccInit with selectedFile := some "leads.csv" }
        (.ok (some [])) "boom").2 = none ∧
    (handleCreateCampaign { ccInit with selectedFile := some "leads.csv" }
        (.ok (some [])) "boom").1.message =
      "Please select an agent for the campaign." ∧
    (handleCreateCampaign ccReady (.ok (some [])) "boom").2 =
      some { file := "leads.csv", agent_id := "agent_42" } := by
  obtain ⟨g1, -⟩ :=
    (submit_validation_guards { ccInit with selectedAgent := "agent_42" }
      (.ok (some [])) "boom").1 rfl
  obtain ⟨g2, g3, -⟩ :=
    ((submit_validation_guards { ccInit with selectedFile := some "leads.csv" }
      (.ok (some [])) "boom").2.1) "leads.csv" rfl rfl
  have g4 :=
    ((submit_validation_guards ccReady (.ok (some [])) "boom").2.2) "leads.csv"
      rfl (by decide)
  refine ⟨g1, ?_, g2, g3, ?_⟩
  · obtain ⟨-, gm, -⟩ :=
      (submit_validation_guards { ccInit with selectedAgent := "agent_42" }
        (.ok (some [])) "boom").1 rfl
    exact gm
  · rw [g4]
    decide

/-- C6: a submit whose POST fails at the transport level (the request
throws, or the body cannot be decoded) yields a message that is the
caught error's description prefixed by the generic failure label — hence
containing that description — with failure styling and the in-flight flag
back to idle. -/
theorem submit_transport_error_outcome (s : CCState) (f : String)
    (m : String) (tyErrMsg : String) (hf : s.selectedFile = some f)
    (ha : s.selectedAgent ≠ "") :
    (handleCreateCampaign s (.thrown m) tyErrMsg).1.message =
        "An error occurred: " ++ m ∧
    strContains (handleCreateCampaign s (.thrown m) tyErrMsg).1.message m ∧
    (handleCreateCampaign s (.thrown m) tyErrMsg).1.messageType = "error" ∧
    (handleCreateCampaign s (.thrown m) tyErrMsg).1.loading = false := by
  have hb : (s.selectedAgent == "") = false := by
    simp [ha]
  have hmsg : (handleCreateCampaign s (.thrown m) tyErrMsg).1.message =
      "An error occurred: " ++ m := by
    simp [handleCreateCampaign, hf, hb]
  refine ⟨hmsg, ?_, ?_, ?_⟩
  · rw [hmsg]
    exact strContains_append_right _ _
  · simp [handleCreateCampaign, hf, hb]
  · simp [handleCreateCampaign, hf, hb]

/-- C6 witness: a thrown `Failed to fetch` produces a failure-styled
message containing that text and leaves the flag idle. -/
theorem submit_transport_error_outcome_witness :
    strContains
      (handleCreateCampaign ccReady (.thrown "Failed to fetch") "boom").1.message
      "Failed to fetch" ∧
    (handleCreateCampaign ccReady (.thrown "Failed to fetch") "boom").1.messageType
      = "error" ∧
    (handleCreateCampaign ccReady (.thrown "Failed to fetch") "boom").1.loading
      = false := by
  obtain ⟨-, h2, h3, h4⟩ :=
    submit_transport_error_outcome ccReady "leads.csv" "Failed to fetch"
      "boom" rfl (by decide)
  exact ⟨h2, h3, h4⟩

/-- C9: every submit that reaches the network ends with the in-flight
flag false on all outcomes, and a 2xx response whose body lacks the
`lead_ids` array does not wedge the view: the resulting exception is
caught and reported as a failure message, after which the flag is
false. -/
theorem submit_always_returns_idle (s : CCState) (f : String)
    (outcome : UploadOutcome) (tyErrMsg : String)
    (hf : s.selectedFile = some f) (ha : s.selectedAgent ≠ "") :
    (handleCreateCampaign s outcome tyErrMsg).1.loading = false ∧
    (outcome = .ok none →
        (handleCreateCampaign s outcome tyErrMsg).1.message =
          "An error occurred: " ++ tyErrMsg ∧
        (handleCreateCampaign s outcome tyErrMsg).1.messageType = "error") := by
  have hb : (s.selectedAgent == "") = false := by
    simp [ha]
  constructor
  · cases outcome with
    | ok leadIds =>
        cases leadIds <;> simp [handleCreateCampaign, hf, hb]
    | httpError detail => simp [handleCreateCampaign, hf, hb]
    | thrown m => simp [handleCreateCampaign, hf, hb]
  · intro ho
    subst ho
    constructor <;> simp [handleCreateCampaign, hf, hb]

/-- C9 witness: a 2xx response without `lead_ids` reports the caught
exception's message with failure styling and ends idle. -/
theorem submit_always_returns_idle_witness :
    (handleCreateCampaign ccReady (.ok none) "lead_ids is undefined").1.loading
      = false ∧
    (handleCreateCampaign ccReady (.ok none) "lead_ids is undefined").1.message
      = "An error occurred: lead_ids is undefined" ∧
    (handleCreateCampaign ccReady (.ok none) "lead_ids is undefined").1.messageType
      = "error" := by
  obtain ⟨h1, h2⟩ :=
    submit_always_returns_idle ccReady "leads.csv" (.ok none)
      "lead_ids is undefined" rfl (by decide)
  obtain ⟨h3, h4⟩ := h2 rfl
  refine ⟨h1, ?_, h4⟩
  rw [h3]
  decide

/-- C5: after a successful roster fetch the Dashboard renders one card per
agent keyed by that agent's id when the roster is non-empty and the
explicit empty state when it is empty; after an HTTP failure with any
status it renders an error view whose message contains the status code
and is neither the card list nor the empty state. -/
theorem dashboard_render_contract (agents : List Agent) (status : Nat) :
    (agents ≠ [] →
        dashboardRender (dashFetchAgents (.ok agents) dashInit) =
          .cards (agents.map Agent.id)) ∧
    (agents = [] →
        dashboardRender (dashFetchAgents (.ok agents) dashInit) =
          .emptyState) ∧
    (dashboardRender (dashFetchAgents (.httpError status) dashInit) =
        .errorView ("Error loading agents: " ++ httpErrorMsg status)) ∧
    strContains ("Error loading agents: " ++ httpErrorMsg status)
        (toString status) ∧
    (∀ ks, dashboardRender (dashFetchAgents (.httpError status) dashInit) ≠
        .cards ks) ∧
    dashboardRender (dashFetchAgents (.httpError status) dashInit) ≠
        .emptyState := by
  have hne := httpErrorMsg_ne_empty status
  have htr : strTruthy (some (httpErrorMsg status)) = true := by
    simp [strTruthy, hne]
  have herr : dashboardRender (dashFetchAgents (.httpError status) dashInit) =
      .errorView ("Error loading agents: " ++ httpErrorMsg status) := by
    simp [dashboardRender, dashFetchAgents, dashInit, htr, jsOr, hne]
  refine ⟨?_, ?_, herr, ?_, ?_, ?_⟩
  · intro h
    simp [dashboardRender, dashFetchAgents, dashInit, strTruthy,
      List.length_eq_zero, h]
  · intro h
    subst h
    simp [dashboardRender, dashFetchAgents, dashInit, strTruthy]
  · unfold httpErrorMsg
    exact strContains_of_append_left _ _ _ (strContains_append_right _ _)
  · intro ks
    rw [herr]
    simp
  · rw [herr]
    simp

/-- C5 witness: a fetched two-agent roster renders exactly those two cards
keyed by id, an empty roster renders the empty state, and an HTTP 500
renders the error view whose text contains `500`. -/
theorem dashboard_render_contract_witness :
    dashboardRender (dashFetchAgents
        (.ok [{ id := "a1", name := some "Ava" }, { id := "a2", name := none }])
        dashInit) = .cards ["a1", "a2"] ∧
    dashboardRender (dashFetchAgents (.ok []) dashInit) = .emptyState ∧
    dashboardRender (dashFetchAgents (.httpError 500) dashInit) =
      .errorView "Error loading agents: HTTP error! status: 500" ∧
    strContains "Error loading agents: HTTP error! status: 500" "500" := by
  obtain ⟨h1, -, -, -, -, -⟩ :=
    dashboard_render_contract
      [{ id := "a1", name := some "Ava" }, { id := "a2", name := none }] 500
  obtain ⟨-, h2, -, -, -, -⟩ := dashboard_render_contract [] 500
  obtain ⟨-, -, h3, -, -, -⟩ := dashboard_render_contract [] 500
  refine ⟨?_, h2 rfl, ?_, by decide⟩
  · rw [h1 (by decide)]
    decide
  · rw [h3]
    decide

end LeadMgmt
